import Mathlib

/-!
Verification of the normative lookup and scoring engine of the pediatric
organ-size calculator (`app.py`).

The engine's numeric values (Python floats) are modelled as rationals `ℚ`:
every operation the engine performs on them (comparison, subtraction,
division, scaling by 10 and 12) is exact on the inputs of interest, so no
rounding behaviour of binary floating point is relied upon by the
properties below.  Python strings are modelled as `List Char`; Python's
`float(str)` constructor is modelled by `pyFloat`, a partial parser
returning `Option ℚ` (`none` models a raised `ValueError`).  Exceptions
that can escape the engine are modelled with the `Except` monad over the
error type `PyExc`.
-/

/-- Python exceptions relevant to the engine: `float()` raising
`ValueError`, a dict subscript raising `KeyError`, and `iloc` on an empty
frame raising `IndexError`. -/
inductive PyExc where
  | valueError
  | keyError
  | indexError
deriving DecidableEq, Repr

/-- One age band of a normative table (one CSV row): columns
`age_min_months, age_max_months, mean_mm, sd_mm, lower_mm, upper_mm`. -/
structure NormativeRow where
  age_min_months : ℚ
  age_max_months : ℚ
  mean_mm : ℚ
  sd_mm : ℚ
  lower_mm : ℚ
  upper_mm : ℚ
deriving DecidableEq, Repr

/-- The qualitative verdict shown to the user ("Too small" / "Too large" /
"Within normal limits"). -/
inductive Verdict where
  | tooSmall
  | tooLarge
  | withinNormalLimits
deriving DecidableEq, Repr

/- ### String helpers modelling Python's `str` methods -/

/-- Python `str.strip()` (no arguments): drop whitespace from both ends. -/
def pyStrip (s : List Char) : List Char :=
  ((s.dropWhile Char.isWhitespace).reverse.dropWhile Char.isWhitespace).reverse

/-- Python `str.lower()` (the engine's inputs are ASCII). -/
def pyLower (s : List Char) : List Char :=
  s.map Char.toLower

/-- Python `s.split(c, 1)` for a one-character separator that occurs in
`s`: the part before the first occurrence of `c` and the part after it. -/
def splitOnce (c : Char) : List Char → List Char × List Char
  | [] => ([], [])
  | a :: rest =>
    if a = c then ([], rest)
    else
      let p := splitOnce c rest
      (a :: p.1, p.2)

/-- Value of a (most-significant-first) digit string. -/
def digitsToNat (ds : List Char) : ℕ :=
  ds.foldl (fun n c => 10 * n + (c.toNat - 48)) 0

/-- Exponent suffix of a Python float literal: empty, or
`('e'|'E') ['+'|'-'] digit+` with nothing after it. -/
def parseExpPart (s : List Char) : Option ℤ :=
  match s with
  | [] => some 0
  | e :: rest =>
    if e = 'e' ∨ e = 'E' then
      let p : ℤ × List Char :=
        match rest with
        | '+' :: r => (1, r)
        | '-' :: r => (-1, r)
        | r => (1, r)
      let ds := p.2.takeWhile Char.isDigit
      if ds = [] ∨ p.2.dropWhile Char.isDigit ≠ [] then none
      else some (p.1 * (digitsToNat ds : ℤ))
    else none

/-- Body of `pyFloat` after whitespace stripping: optional sign, then
`digit+ [. digit*] | . digit+`, then an optional exponent. -/
def pyFloatCore (s : List Char) : Option ℚ :=
  let q : ℚ × List Char :=
    match s with
    | '+' :: r => (1, r)
    | '-' :: r => (-1, r)
    | r => (1, r)
  let intDs := q.2.takeWhile Char.isDigit
  let r2 := q.2.dropWhile Char.isDigit
  let fr : List Char × List Char :=
    match r2 with
    | '.' :: rest => (rest.takeWhile Char.isDigit, rest.dropWhile Char.isDigit)
    | _ => ([], r2)
  if intDs = [] ∧ fr.1 = [] then none
  else
    match parseExpPart fr.2 with
    | none => none
    | some e =>
      some (q.1 * ((digitsToNat intDs : ℚ) + (digitsToNat fr.1 : ℚ) / 10 ^ fr.1.length) * 10 ^ e)

/-- Model of Python's `float(str)`: `some q` on a decimal literal
(optionally signed, with optional fraction and exponent, surrounded by
optional whitespace), `none` where `float()` raises `ValueError`.
(The `inf`/`nan` spellings, which have no rational value, are outside the
model; the engine never receives them.) -/
def pyFloat (s : List Char) : Option ℚ :=
  pyFloatCore (pyStrip s)

/- ### The engine's helper functions, translated from `app.py` -/

/-- `app.py` line 134: `return val * 10 if unit == "cm" else val`. -/
def to_mm (val : ℚ) (unit : String) : ℚ :=
  if unit = "cm" then val * 10 else val

/-- `app.py` lines 138–161: `parse_age_to_months`.  Each Python
`try: x = float(...) except: x = 0.0` becomes `(pyFloat ...).getD 0`. -/
def parse_age_to_months (input : List Char) : ℚ :=
  let s0 := pyLower (pyStrip input)
  let ys : ℚ × List Char :=
    if s0.contains 'y' then (((pyFloat (splitOnce 'y' s0).1).getD 0), (splitOnce 'y' s0).2)
    else (0, s0)
  let months : ℚ :=
    if ys.2.contains 'm' then (pyFloat (splitOnce 'm' ys.2).1).getD 0
    else 0
  let months : ℚ :=
    if ys.1 = 0 ∧ months = 0 then (pyFloat ys.2).getD 0
    else months
  ys.1 * 12 + months

/-- `parse_age_to_months` on a Lean string literal. -/
def parseAge (s : String) : ℚ :=
  parse_age_to_months s.data

/-- `app.py` lines 163–175: `format_age_range` needs Python's `f"{x:.1f}"`
formatting and `int()` truncation.  `f"{x:.1f}"` is modelled as rounding
`x` to the nearest tenth (`⌊10x + 1/2⌋` tenths) and printing one digit
after the point; `int()` truncates toward zero. -/
def fmt1 (q : ℚ) : String :=
  let n : ℤ := ⌊q * 10 + 1 / 2⌋
  (if n < 0 then "-" else "") ++ toString (n.natAbs / 10) ++ "." ++ toString (n.natAbs % 10)

/-- Python `int()` on a float: truncation toward zero. -/
def intTrunc (q : ℚ) : ℤ :=
  if q < 0 then ⌈q⌉ else ⌊q⌋

/-- `app.py` lines 163–175: `format_age_range(min_mo, max_mo)`. -/
def format_age_range (min_mo max_mo : ℚ) : String :=
  if 24 ≤ min_mo then
    fmt1 (min_mo / 12) ++ "–" ++ fmt1 (max_mo / 12) ++ " yrs"
  else
    toString (intTrunc min_mo) ++ "–" ++ toString (intTrunc max_mo) ++ " mo"

/-- `app.py` line 201: `z = (meas_mm - row.mean_mm) / row.sd_mm`. -/
def zscore (meas_mm : ℚ) (r : NormativeRow) : ℚ :=
  (meas_mm - r.mean_mm) / r.sd_mm

/-- `app.py` lines 208–213: the verdict branch
(`meas_mm < lower` / `meas_mm > upper` / otherwise). -/
def verdict (meas_mm : ℚ) (r : NormativeRow) : Verdict :=
  if meas_mm < r.lower_mm then Verdict.tooSmall
  else if meas_mm > r.upper_mm then Verdict.tooLarge
  else Verdict.withinNormalLimits

/-- The row filter of `app.py` lines 187–190:
`(table.age_min_months <= age_months) & (age_months <= table.age_max_months)`. -/
def inBand (age : ℚ) (r : NormativeRow) : Bool :=
  decide (r.age_min_months ≤ age ∧ age ≤ r.age_max_months)

/-- `table.age_min_months.min()` of `app.py` line 192: the least
`age_min_months` over all rows (0 on the empty table, where pandas would
give NaN; `selectRow` never consults it there). -/
def minAgeMin : List NormativeRow → ℚ
  | [] => 0
  | r :: rs => rs.foldl (fun m x => min m x.age_min_months) r.age_min_months

/-- `app.py` lines 187–198: `match.iloc[0]` is the first row passing the
filter; on an empty match, `table.iloc[0]` if
`age_months < table.age_min_months.min()` else `table.iloc[-1]`.  The
returned flag records whether the age fell inside a band (`match` was
nonempty; the code shows the out-of-range warning exactly when it is
`false`).  `none` models the `IndexError` that `iloc` raises on an empty
table. -/
def selectRow (rows : List NormativeRow) (age : ℚ) : Option (NormativeRow × Bool) :=
  match rows.find? (inBand age) with
  | some r => some (r, true)
  | none =>
    match rows.head?, rows.getLast? with
    | some first, some last =>
      some (if age < minAgeMin rows then first else last, false)
    | _, _ => none

/-- The organ catalog built by `load_normative_tables` (`app.py`
lines 9–18): a finite association of organ keys to tables. -/
def OrganCatalog : Type :=
  List (String × List NormativeRow)

/-- The result assembled by the Compute Z-Score block: canonical age and
measurement, the row used with its in-range flag, z-score, verdict, and
the rendered age label of `app.py` line 218. -/
structure ScoreResult where
  age_months : ℚ
  meas_mm : ℚ
  row : NormativeRow
  in_range : Bool
  z : ℚ
  verdict : Verdict
  age_label : String
deriving DecidableEq, Repr

/-- `app.py` lines 179–218, the Compute Z-Score block as one function of
its inputs.  `norms[key]` is a Python dict subscript: it raises `KeyError`
when the key is absent, which the block does not catch, so it is the
`Except.error PyExc.keyError` outcome here.  `iloc` on an empty table
raises `IndexError` likewise. -/
def computeZScore (catalog : OrganCatalog) (organKey : String)
    (ageInput : List Char) (measurementValue : ℚ) (unit : String) :
    Except PyExc ScoreResult := do
  let age_months := parse_age_to_months ageInput
  let meas := to_mm measurementValue unit
  let table ← match List.lookup organKey catalog with
              | some t => Except.ok t
              | none => Except.error PyExc.keyError
  let sel ← match selectRow table age_months with
            | some p => Except.ok p
            | none => Except.error PyExc.indexError
  pure { age_months := age_months
         meas_mm := meas
         row := sel.1
         in_range := sel.2
         z := zscore meas sel.1
         verdict := verdict meas sel.1
         age_label := format_age_range sel.1.age_min_months sel.1.age_max_months }

/-- A Python `float(s)` call as an expression that can raise:
`ValueError` exactly when `pyFloat` has no value. -/
def pyFloatE (s : List Char) : Except PyExc ℚ :=
  match pyFloat s with
  | some q => Except.ok q
  | none => Except.error PyExc.valueError

/-- One `try: x = float(s)` / `except: x = d` statement of
`parse_age_to_months`. -/
def tryFloatOr (d : ℚ) (s : List Char) : Except PyExc ℚ :=
  tryCatch (pyFloatE s) (fun _ => pure d)

/-- `parse_age_to_months` with Python's exception flow kept explicit: the
same statements as `parse_age_to_months`, but every `float()` call can
raise and every `try/except` is a `tryCatch`. -/
def parseAgeE (input : List Char) : Except PyExc ℚ := do
  let s0 := pyLower (pyStrip input)
  let ys : ℚ × List Char ←
    if s0.contains 'y' then do
      let y ← tryFloatOr 0 (splitOnce 'y' s0).1
      pure (y, (splitOnce 'y' s0).2)
    else pure ((0 : ℚ), s0)
  let m1 : ℚ ←
    if ys.2.contains 'm' then tryFloatOr 0 (splitOnce 'm' ys.2).1
    else pure (0 : ℚ)
  let months : ℚ ←
    if ys.1 = 0 ∧ m1 = 0 then tryFloatOr 0 ys.2
    else pure m1
  pure (ys.1 * 12 + months)

/- ### Spec-side restatement of §4.2 (for the refinement part of the age
parser claim) -/

/-- The `years` component as §4.2 words it: after trimming and
lower-casing, if a "y" marker is present, the left part of the single
split on it parsed as a float (0 on parse failure); otherwise 0. -/
def specYears (text : List Char) : ℚ :=
  let s := pyLower (pyStrip text)
  if s.contains 'y' then (pyFloat (splitOnce 'y' s).1).getD 0 else 0

/-- The remainder §4.2 continues from: after the "y" marker when one is
present, the whole (trimmed, lower-cased) input otherwise. -/
def specRemainder (text : List Char) : List Char :=
  let s := pyLower (pyStrip text)
  if s.contains 'y' then (splitOnce 'y' s).2 else s

/-- The `months` component as §4.2 words it: the left part of the single
split on an "m" marker in the remainder (0 on failure or no marker); if
both `years` and `months` are exactly 0 after that, the entire remaining
string parsed as a float (0 on failure). -/
def specMonths (text : List Char) : ℚ :=
  let r := specRemainder text
  let m : ℚ := if r.contains 'm' then (pyFloat (splitOnce 'm' r).1).getD 0 else 0
  if specYears text = 0 ∧ m = 0 then (pyFloat r).getD 0 else m

/- ### Concrete rows and tables used by witnesses -/

/-- The row of spec §8 item 4: `{mean_mm:50, sd_mm:5, lower_mm:40, upper_mm:60}`. -/
def row40_60 : NormativeRow :=
  { age_min_months := 0, age_max_months := 12
    mean_mm := 50, sd_mm := 5, lower_mm := 40, upper_mm := 60 }

/-- A row with the same suggested limits as `row40_60` but different
statistics. -/
def row40_60' : NormativeRow :=
  { age_min_months := 0, age_max_months := 12
    mean_mm := 99, sd_mm := 1, lower_mm := 40, upper_mm := 60 }

/-- First band of the three-band demonstration table of spec §8 item 3. -/
def demoRow1 : NormativeRow :=
  { age_min_months := 0, age_max_months := 12
    mean_mm := 30, sd_mm := 4, lower_mm := 22, upper_mm := 38 }

/-- Second band of the demonstration table. -/
def demoRow2 : NormativeRow :=
  { age_min_months := 12, age_max_months := 24
    mean_mm := 45, sd_mm := 5, lower_mm := 35, upper_mm := 55 }

/-- Third band of the demonstration table. -/
def demoRow3 : NormativeRow :=
  { age_min_months := 24, age_max_months := 216
    mean_mm := 80, sd_mm := 10, lower_mm := 60, upper_mm := 100 }

/-- The table with bands [(0,12),(12,24),(24,216)] of spec §8 item 3. -/
def demoTable : List NormativeRow :=
  [demoRow1, demoRow2, demoRow3]

/-- A one-organ catalog used to exercise the engine at a concrete input. -/
def demoCatalog : OrganCatalog :=
  [("right_kidney_length", demoTable)]
/-- C7: for every value x >= 0, `to_mm(x, "cm") = 10*x` and `to_mm(x, "mm") = x`. -/
theorem to_mm_unit_conversion :
    ∀ x : ℚ, 0 ≤ x → to_mm x "cm" = 10 * x ∧ to_mm x "mm" = x := by
  intro x _
  refine ⟨?_, ?_⟩
  · simp [to_mm]; ring
  · simp [to_mm]

theorem to_mm_unit_conversion_witness :
    (0 : ℚ) ≤ 3 ∧ to_mm 3 "cm" = 10 * 3 ∧ to_mm 3 "mm" = 3 :=
  ⟨by norm_num, to_mm_unit_conversion 3 (by norm_num)⟩

/-- C10: for every value v and unit string u with u ≠ "cm" (including units
outside the documented domain), `to_mm(v, u)` returns v unchanged: an invalid
unit is silently treated as millimeters. -/
theorem to_mm_fallthrough :
    ∀ (v : ℚ) (u : String), u ≠ "cm" → to_mm v u = v := by
  intro v u h
  simp [to_mm, h]

theorem to_mm_fallthrough_witness :
    "in" ≠ "cm" ∧ to_mm 5 "in" = 5 :=
  ⟨by decide, to_mm_fallthrough 5 "in" (by decide)⟩

/-- C3: for every measurement and every row with sd_mm > 0, the computed
z-score equals `(meas_mm - row.mean_mm) / row.sd_mm`. -/
theorem zscore_formula :
    ∀ (meas : ℚ) (r : NormativeRow), 0 < r.sd_mm →
      zscore meas r = (meas - r.mean_mm) / r.sd_mm := by
  intro _ _ _
  rfl

theorem zscore_formula_witness :
    0 < demoRow1.sd_mm ∧ zscore 35 demoRow1 = (35 - demoRow1.mean_mm) / demoRow1.sd_mm :=
  ⟨by norm_num [demoRow1], zscore_formula 35 demoRow1 (by norm_num [demoRow1])⟩

/-- C9: the verdict depends only on meas_mm, lower_mm and upper_mm — two rows
agreeing on lower_mm and upper_mm but differing arbitrarily in mean_mm and
sd_mm receive identical verdicts, so the z-score value never influences the
verdict. -/
theorem verdict_noninterference :
    ∀ (meas : ℚ) (r1 r2 : NormativeRow),
      r1.lower_mm = r2.lower_mm → r1.upper_mm = r2.upper_mm →
      verdict meas r1 = verdict meas r2 := by
  intro meas r1 r2 hl hu
  unfold verdict
  rw [hl, hu]

theorem verdict_noninterference_witness :
    row40_60.lower_mm = row40_60'.lower_mm ∧ row40_60.upper_mm = row40_60'.upper_mm ∧
      verdict 45 row40_60 = verdict 45 row40_60' :=
  ⟨rfl, rfl, verdict_noninterference 45 row40_60 row40_60' rfl rfl⟩

/-- C2: the verdict policy is range-based — TooSmall iff meas_mm < lower_mm,
TooLarge iff meas_mm > upper_mm, WithinNormalLimits otherwise (for rows
satisfying the data-model invariant lower_mm ≤ upper_mm); at the row with
lower 40 / upper 60, meas 60 is WithinNormalLimits, 60.01 is TooLarge and
39.99 is TooSmall. -/
theorem verdict_range_based :
    (∀ (meas : ℚ) (r : NormativeRow), r.lower_mm ≤ r.upper_mm →
      ((verdict meas r = Verdict.tooSmall ↔ meas < r.lower_mm) ∧
       (verdict meas r = Verdict.tooLarge ↔ meas > r.upper_mm) ∧
       (verdict meas r = Verdict.withinNormalLimits ↔
         r.lower_mm ≤ meas ∧ meas ≤ r.upper_mm)))
    ∧ verdict 60 row40_60 = Verdict.withinNormalLimits
    ∧ verdict (60.01 : ℚ) row40_60 = Verdict.tooLarge
    ∧ verdict (39.99 : ℚ) row40_60 = Verdict.tooSmall := by
  refine ⟨?_, ?_, ?_, ?_⟩
  · intro meas r hle
    unfold verdict
    split_ifs with h1 h2
    · refine ⟨by simp [h1], ?_, ?_⟩
      · simp
        linarith
      · simp
        intro h
        linarith
    · refine ⟨by simp [h1], by simp [h2], ?_⟩
      · simp
        intro h
        linarith
    · refine ⟨by simp [h1], by simp [h2], ?_⟩
      simp
      exact ⟨le_of_not_lt h1, le_of_not_lt h2⟩
  · norm_num [verdict, row40_60]
  · norm_num [verdict, row40_60]
  · norm_num [verdict, row40_60]

theorem verdict_range_based_witness :
    row40_60.lower_mm ≤ row40_60.upper_mm ∧
      (verdict 50 row40_60 = Verdict.withinNormalLimits ↔
        row40_60.lower_mm ≤ 50 ∧ (50 : ℚ) ≤ row40_60.upper_mm) :=
  ⟨by norm_num [row40_60], (verdict_range_based.1 50 row40_60 (by norm_num [row40_60])).2.2⟩
/-- `List.find?` returns the element at the first index satisfying the
predicate. -/
theorem find?_of_first {α : Type} (p : α → Bool) (l : List α) :
    ∀ (i : ℕ) (hi : i < l.length), p (l.get ⟨i, hi⟩) = true →
      (∀ j (hj : j < i), p (l.get ⟨j, Nat.lt_trans hj hi⟩) = false) →
      l.find? p = some (l.get ⟨i, hi⟩) := by
  induction l with
  | nil => intro i hi; exact absurd hi (Nat.not_lt_zero i)
  | cons a t ih =>
    intro i hi hp hmin
    cases i with
    | zero =>
      simp at hp
      simp [List.find?_cons_of_pos, hp]
    | succ k =>
      have ha : p a = false := by
        have := hmin 0 (Nat.succ_pos k)
        simpa using this
      rw [List.find?_cons_of_neg _ (by simp [ha])]
      have hk : k < t.length := Nat.lt_of_succ_lt_succ hi
      have hpk : p (t.get ⟨k, hk⟩) = true := by simpa using hp
      have hminK : ∀ j (hj : j < k), p (t.get ⟨j, Nat.lt_trans hj hk⟩) = false := by
        intro j hj
        have := hmin (j + 1) (Nat.succ_lt_succ hj)
        simpa using this
      have := ih k hk hpk hminK
      simpa using this

/-- C1: on a table ordered by age_min_months ascending, the selector returns
the first row in table order whose band contains age_months with
in_range = true; if no row matches it returns the first row when age_months is
below the minimum age_min_months over all rows and the last row otherwise,
with in_range = false. -/
theorem selectRow_spec :
    ∀ (rows : List NormativeRow) (age : ℚ) (hne : rows ≠ []),
      List.Pairwise (fun a b => a.age_min_months ≤ b.age_min_months) rows →
      ((∀ (i : ℕ) (hi : i < rows.length),
          inBand age (rows.get ⟨i, hi⟩) = true →
          (∀ j (hj : j < i), inBand age (rows.get ⟨j, Nat.lt_trans hj hi⟩) = false) →
          selectRow rows age = some (rows.get ⟨i, hi⟩, true))
       ∧ ((∀ r ∈ rows, inBand age r = false) → age < minAgeMin rows →
            selectRow rows age = some (rows.head hne, false))
       ∧ ((∀ r ∈ rows, inBand age r = false) → ¬ age < minAgeMin rows →
            selectRow rows age = some (rows.getLast hne, false))) := by
  intro rows age hne hsort
  refine ⟨?_, ?_, ?_⟩
  · intro i hi hp hmin
    have hfind := find?_of_first (inBand age) rows i hi hp hmin
    simp [selectRow, hfind]
  · intro hall hlt
    have hfind : rows.find? (inBand age) = none := by
      rw [List.find?_eq_none]
      intro x hx
      simp [hall x hx]
    simp [selectRow, hfind, List.head?_eq_head hne, List.getLast?_eq_getLast rows hne, hlt]
  · intro hall hge
    have hfind : rows.find? (inBand age) = none := by
      rw [List.find?_eq_none]
      intro x hx
      simp [hall x hx]
    simp [selectRow, hfind, List.head?_eq_head hne, List.getLast?_eq_getLast rows hne, hge]

theorem selectRow_spec_witness :
    (∀ r ∈ demoTable, inBand (-5) r = false) ∧ (-5 : ℚ) < minAgeMin demoTable ∧
      selectRow demoTable (-5) = some (demoRow1, false) :=
  ⟨by decide, by decide,
    (selectRow_spec demoTable (-5) (by decide) (by decide)).2.1 (by decide) (by decide)⟩
/-- C4: parse_age_to_months maps "2y3m" to 27, "27m" to 27, "1.5y" to 18,
"" to 0 and "garbage" to 0; and on every input the returned value equals
years * 12 + months for the years and months extracted by the
marker-splitting algorithm of spec §4.2 (`specYears` / `specMonths`). -/
theorem parse_age_examples_and_shape :
    parseAge "2y3m" = 27 ∧ parseAge "27m" = 27 ∧ parseAge "1.5y" = 18 ∧
      parseAge "" = 0 ∧ parseAge "garbage" = 0 ∧
      ∀ s : List Char, parse_age_to_months s = specYears s * 12 + specMonths s := by
  refine ⟨?_, ?_, ?_, ?_, ?_, ?_⟩
  · simp [parseAge, parse_age_to_months, pyLower, pyStrip, splitOnce, pyFloat, pyFloatCore,
      parseExpPart, digitsToNat, List.dropWhile, List.takeWhile, List.foldl]
    try norm_num
  · simp [parseAge, parse_age_to_months, pyLower, pyStrip, splitOnce, pyFloat, pyFloatCore,
      parseExpPart, digitsToNat, List.dropWhile, List.takeWhile, List.foldl]
    try norm_num
  · simp [parseAge, parse_age_to_months, pyLower, pyStrip, splitOnce, pyFloat, pyFloatCore,
      parseExpPart, digitsToNat, List.dropWhile, List.takeWhile, List.foldl]
    try norm_num
  · simp [parseAge, parse_age_to_months, pyLower, pyStrip, splitOnce, pyFloat, pyFloatCore,
      parseExpPart, digitsToNat, List.dropWhile, List.takeWhile, List.foldl]
    try norm_num
  · simp [parseAge, parse_age_to_months, pyLower, pyStrip, splitOnce, pyFloat, pyFloatCore,
      parseExpPart, digitsToNat, List.dropWhile, List.takeWhile, List.foldl]
    try norm_num
  · intro s
    by_cases hy : 'y' ∈ pyLower (pyStrip s) <;>
      simp [parse_age_to_months, specYears, specMonths, specRemainder, hy]
/-- A `try: float(s) / except: d` statement never propagates the exception:
it returns the parsed value, or the default when `float` raises. -/
theorem tryFloatOr_eq (d : ℚ) (s : List Char) :
    tryFloatOr d s = Except.ok ((pyFloat s).getD d) := by
  unfold tryFloatOr pyFloatE
  cases pyFloat s <;> rfl

/-- C5: the age parser is total — with Python's exception flow modelled
explicitly (`parseAgeE`), every input string yields `Except.ok` of the pure
result, and an unparsable numeric fragment contributes 0 through its
`try/except` instead of failing. -/
theorem parse_age_total :
    (∀ s : List Char, parseAgeE s = Except.ok (parse_age_to_months s)) ∧
    (∀ frag : List Char, pyFloat frag = none → tryFloatOr 0 frag = Except.ok 0) := by
  refine ⟨?_, ?_⟩
  · intro s
    simp [parseAgeE, parse_age_to_months, tryFloatOr_eq]
    by_cases hy : 'y' ∈ pyLower (pyStrip s)
    · simp [hy, Bind.bind, Except.bind, pure, Except.pure]
      by_cases hm : 'm' ∈ (splitOnce 'y' (pyLower (pyStrip s))).2 <;>
        simp [hm] <;> split_ifs <;> simp_all
    · simp [hy, Bind.bind, Except.bind, pure, Except.pure]
      by_cases hm : 'm' ∈ pyLower (pyStrip s) <;>
        simp [hm] <;> split_ifs <;> simp_all
  · intro frag h
    rw [tryFloatOr_eq, h]
    rfl
/-- C6: when min_mo >= 24 the formatter renders both bounds divided by 12 to
one decimal place with suffix " yrs", otherwise both bounds truncated (not
rounded) to integers with suffix " mo"; format_age_range(1,3) = "1–3 mo" and
format_age_range(180,200) = "15.0–16.7 yrs". -/
theorem format_age_range_spec :
    (∀ min_mo max_mo : ℚ, 24 ≤ min_mo →
        format_age_range min_mo max_mo = fmt1 (min_mo / 12) ++ "–" ++ fmt1 (max_mo / 12) ++ " yrs")
    ∧ (∀ min_mo max_mo : ℚ, ¬ 24 ≤ min_mo →
        format_age_range min_mo max_mo =
          toString (intTrunc min_mo) ++ "–" ++ toString (intTrunc max_mo) ++ " mo")
    ∧ format_age_range 1 3 = "1–3 mo"
    ∧ format_age_range 180 200 = "15.0–16.7 yrs" := by
  refine ⟨?_, ?_, ?_, ?_⟩
  · intro mn mx h
    simp [format_age_range, h]
  · intro mn mx h
    simp [format_age_range, h]
  · have h1 : intTrunc 1 = 1 := by norm_num [intTrunc]
    have h3 : intTrunc 3 = 3 := by norm_num [intTrunc]
    rw [format_age_range, if_neg (by norm_num), h1, h3]
    decide
  · have hf1 : fmt1 ((180 : ℚ) / 12) = "15.0" := by
      have hfl : (⌊(180 : ℚ) / 12 * 10 + 1 / 2⌋ : ℤ) = 150 := by norm_num
      simp only [fmt1, hfl]
      decide
    have hf2 : fmt1 ((200 : ℚ) / 12) = "16.7" := by
      have hfl : (⌊(200 : ℚ) / 12 * 10 + 1 / 2⌋ : ℤ) = 167 := by norm_num
      simp only [fmt1, hfl]
      decide
    rw [format_age_range, if_pos (by norm_num), hf1, hf2]
    decide

theorem format_age_range_spec_witness :
    (24 : ℚ) ≤ 24 ∧
      format_age_range 24 36 = fmt1 (24 / 12) ++ "–" ++ fmt1 (36 / 12) ++ " yrs" :=
  ⟨by norm_num, format_age_range_spec.1 24 36 (by norm_num)⟩
/-- C8, counterexample to the claim as stated: at a concrete request whose
organ key is absent from the catalog, the engine's outcome is an escaped
raised KeyError from the dict subscript `norms[key]` — not an explicit
UnknownOrganError result (the engine has no such result at all). -/
theorem unknown_organ_counterexample :
    computeZScore demoCatalog "pancreas_length" ("2y".data) 5 "cm" =
      Except.error PyExc.keyError := by
  rfl

/-- C8 amended: for every request whose organ key is absent from the loaded
catalog, the `norms[key]` dict subscript raises a KeyError that escapes the
engine boundary uncaught; the engine does not reject with an explicit
UnknownOrganError result. -/
theorem unknown_organ_raises :
    ∀ (catalog : OrganCatalog) (key : String) (ageInput : List Char)
      (meas : ℚ) (unit : String),
      List.lookup key catalog = none →
      computeZScore catalog key ageInput meas unit = Except.error PyExc.keyError := by
  intro catalog key ageInput meas unit h
  unfold computeZScore
  rw [h]
  rfl

theorem unknown_organ_raises_witness :
    List.lookup "spleen_length" demoCatalog = none ∧
      computeZScore demoCatalog "spleen_length" ("27m".data) 40 "mm" =
        Except.error PyExc.keyError :=
  ⟨by decide,
    unknown_organ_raises demoCatalog "spleen_length" ("27m".data) 40 "mm" (by decide)⟩

theorem parse_age_total_witness :
    pyFloat ("garbage".data) = none ∧ tryFloatOr 0 ("garbage".data) = Except.ok 0 :=
  ⟨by decide, parse_age_total.2 ("garbage".data) (by decide)⟩
